import Mathlib

/-!
Shallow embedding of zwcloud/VulkanPlayground (src/VulkanTest/main.cpp),
with theorems settling the frozen claims about queue-family discovery,
logical-device queue setup, swapchain parameter selection, teardown
order, the validation-layer failure path, the event loop, and the
safety of optional accesses after device selection.
-/

namespace VulkanPlayground

/-- One entry of the array returned by vkGetPhysicalDeviceQueueFamilyProperties,
paired with the per-index result of vkGetPhysicalDeviceSurfaceSupportKHR for
the application's surface.  VK_QUEUE_GRAPHICS_BIT is the flag bit 0x1. -/
structure QueueFamily where
  queueFlags : Nat
  presentSupport : Bool
deriving DecidableEq

/-- Test from the source: queueFamily.queueFlags & VK_QUEUE_GRAPHICS_BIT. -/
def hasGraphicsBit (q : QueueFamily) : Bool := q.queueFlags &&& 1 != 0

/-- Struct QueueFamilyIndices of main.cpp: two optional uint32 indices. -/
structure QueueFamilyIndices where
  graphicsFamily : Option Nat
  presentFamily : Option Nat
deriving DecidableEq

/-- Member isComplete of QueueFamilyIndices. -/
def QueueFamilyIndices.isComplete (x : QueueFamilyIndices) : Bool :=
  x.graphicsFamily.isSome && x.presentFamily.isSome

/-- The loop body of findQueueFamilies (main.cpp lines 257-278): at index i the
graphics index is overwritten whenever the flags contain the graphics bit, the
present index is overwritten whenever the surface-support query reports true,
and the loop breaks as soon as both indices are recorded. -/
def findQueueFamiliesAux : List QueueFamily → Nat → QueueFamilyIndices → QueueFamilyIndices
  | [], _, indices => indices
  | q :: rest, i, indices =>
    let indices1 :=
      if hasGraphicsBit q then { indices with graphicsFamily := some i } else indices
    let indices2 :=
      if q.presentSupport then { indices1 with presentFamily := some i } else indices1
    if indices2.isComplete then indices2 else findQueueFamiliesAux rest (i + 1) indices2

/-- findQueueFamilies of main.cpp, as a function of the queue-family property
list (together with the per-index surface-support query results). -/
def findQueueFamilies (queueFamilies : List QueueFamily) : QueueFamilyIndices :=
  findQueueFamiliesAux queueFamilies 0 ⟨none, none⟩

/-- Index of the last element of a list satisfying a predicate (spec-side
helper used to state what the scan actually returns). -/
def lastIdx (p : QueueFamily → Bool) : List QueueFamily → Option Nat
  | [] => none
  | q :: rest =>
    match lastIdx p rest with
    | some j => some (j + 1)
    | none => if p q then some 0 else none

/-- The prefix of the family list that the scan actually visits, given which
predicates have already been satisfied: scanning stops with the first element
after which both a graphics match and a present match have been seen. -/
def scannedAux : List QueueFamily → Bool → Bool → List QueueFamily
  | [], _, _ => []
  | q :: rest, g, p =>
    let g1 := g || hasGraphicsBit q
    let p1 := p || q.presentSupport
    if g1 && p1 then [q] else q :: scannedAux rest g1 p1

/-- The prefix of the family list visited by findQueueFamilies. -/
def scanned (l : List QueueFamily) : List QueueFamily := scannedAux l false false

/-- Combine a previously recorded index with the scan result over a suffix
starting at absolute index i: a match in the suffix overwrites the old value. -/
def mergeIdx (old : Option Nat) (i : Nat) : Option Nat → Option Nat
  | none => old
  | some j => some (i + j)

theorem lastIdx_cons (p : QueueFamily → Bool) (q : QueueFamily) (rest : List QueueFamily) :
    lastIdx p (q :: rest) =
      match lastIdx p rest with
      | some j => some (j + 1)
      | none => if p q then some 0 else none := rfl

theorem mergeIdx_cons (old : Option Nat) (i : Nat) (b : Bool) (r : Option Nat) :
    mergeIdx (if b then some i else old) (i + 1) r
      = mergeIdx old i
          (match r with
           | some j => some (j + 1)
           | none => if b then some 0 else none) := by
  cases r <;> cases b <;> simp [mergeIdx] <;> omega

theorem mergeIdx_none_zero (o : Option Nat) : mergeIdx none 0 o = o := by
  cases o <;> simp [mergeIdx]

theorem findQueueFamiliesAux_eq (l : List QueueFamily) :
    ∀ (i : Nat) (g p : Option Nat),
      findQueueFamiliesAux l i ⟨g, p⟩ =
        ⟨mergeIdx g i (lastIdx hasGraphicsBit (scannedAux l g.isSome p.isSome)),
         mergeIdx p i (lastIdx (fun q => q.presentSupport) (scannedAux l g.isSome p.isSome))⟩ := by
  induction l with
  | nil =>
    intro i g p
    simp [findQueueFamiliesAux, scannedAux, lastIdx, mergeIdx]
  | cons q rest ih =>
    intro i g p
    simp only [findQueueFamiliesAux, scannedAux]
    cases hG : hasGraphicsBit q <;> cases hP : q.presentSupport <;>
      cases g <;> cases p <;>
        simp [QueueFamilyIndices.isComplete, ih, lastIdx, mergeIdx, hG, hP] <;>
          refine ⟨?_, ?_⟩ <;>
            (try generalize lastIdx _ _ = o) <;> (try cases o) <;>
              simp [mergeIdx, lastIdx, hG, hP] <;> omega

theorem findQueueFamilies_eq (l : List QueueFamily) :
    findQueueFamilies l =
      ⟨lastIdx hasGraphicsBit (scanned l), lastIdx (fun q => q.presentSupport) (scanned l)⟩ := by
  unfold findQueueFamilies scanned
  rw [findQueueFamiliesAux_eq]
  simp [mergeIdx_none_zero, Option.isSome]

theorem scannedAux_prefix (l : List QueueFamily) :
    ∀ g p, ∃ t, scannedAux l g p ++ t = l := by
  induction l with
  | nil => intro g p; exact ⟨[], rfl⟩
  | cons q rest ih =>
    intro g p
    simp only [scannedAux]
    split
    · exact ⟨rest, rfl⟩
    · obtain ⟨t, ht⟩ := ih (g || hasGraphicsBit q) (p || q.presentSupport)
      exact ⟨t, by simp [ht]⟩

theorem scannedAux_not_complete_before (l : List QueueFamily) :
    ∀ g p n, (g && p) = false → n < (scannedAux l g p).length →
      ((g || (l.take n).any hasGraphicsBit) &&
        (p || (l.take n).any fun q => q.presentSupport)) = false := by
  induction l with
  | nil => intro g p n hgp hn; simp [scannedAux] at hn
  | cons q rest ih =>
    intro g p n hgp hn
    simp only [scannedAux] at hn
    cases n with
    | zero => simpa using hgp
    | succ m =>
      by_cases hc : ((g || hasGraphicsBit q) && (p || q.presentSupport)) = true
      · rw [if_pos hc] at hn
        simp at hn
      · rw [if_neg hc] at hn
        simp only [List.length_cons, Nat.succ_lt_succ_iff] at hn
        have hrec := ih (g || hasGraphicsBit q) (p || q.presentSupport) m
          (by simpa using hc) hn
        simp only [List.take_succ_cons, List.any_cons]
        clear ih hn hgp
        cases g <;> cases p <;> cases hq : hasGraphicsBit q <;>
          cases hp : q.presentSupport <;> simp_all <;> exact hrec

theorem scannedAux_complete_of_lt (l : List QueueFamily) :
    ∀ g p, (scannedAux l g p).length < l.length →
      ((g || (scannedAux l g p).any hasGraphicsBit) &&
        (p || (scannedAux l g p).any fun q => q.presentSupport)) = true := by
  induction l with
  | nil => intro g p h; simp [scannedAux] at h
  | cons q rest ih =>
    intro g p h
    simp only [scannedAux] at h ⊢
    by_cases hc : ((g || hasGraphicsBit q) && (p || q.presentSupport)) = true
    · rw [if_pos hc] at h ⊢
      simp only [List.any_cons, List.any_nil]
      cases g <;> cases p <;> cases hq : hasGraphicsBit q <;>
        cases hp : q.presentSupport <;> simp_all
    · rw [if_neg hc] at h ⊢
      simp only [List.length_cons, Nat.succ_lt_succ_iff] at h
      have hrec := ih (g || hasGraphicsBit q) (p || q.presentSupport) h
      simp only [List.any_cons]
      clear ih h
      cases g <;> cases p <;> cases hq : hasGraphicsBit q <;>
        cases hp : q.presentSupport <;> simp_all

theorem lastIdx_append (p : QueueFamily → Bool) (s : List QueueFamily) (q : QueueFamily) :
    lastIdx p (s ++ [q]) = if p q then some s.length else lastIdx p s := by
  induction s with
  | nil => cases hq : p q <;> simp [lastIdx, hq]
  | cons a s ih =>
    rw [List.cons_append, lastIdx_cons, ih, lastIdx_cons]
    cases hq : p q <;> cases h : lastIdx p s <;> simp

/-- Claim C1, corrected.  findQueueFamilies scans the queue families in order
and stops after the first index at which both a graphics-capable index and a
present-supporting index have been recorded (otherwise it scans the whole
list); each returned index is the MOST RECENTLY matched index within the
scanned prefix (the last match, not the lowest); in particular, when the
family at the stopping position itself supports both graphics and present,
both returned indices equal that family's index.  The conjuncts state: (1) the
result is the last graphics match and the last present match of the scanned
prefix; (2) the scanned portion is a prefix of the input; (3) no strictly
shorter prefix already contains both a graphics match and a present match;
(4) if the scan stopped early, the scanned prefix contains both; (5) the
special case at the stopping family. -/
theorem claim1_findQueueFamilies_last_match_in_scanned_prefix (l : List QueueFamily) :
    findQueueFamilies l =
        ⟨lastIdx hasGraphicsBit (scanned l), lastIdx (fun q => q.presentSupport) (scanned l)⟩ ∧
      (∃ t, scanned l ++ t = l) ∧
      (∀ n, n < (scanned l).length →
        ¬((l.take n).any hasGraphicsBit = true ∧
          ((l.take n).any fun q => q.presentSupport) = true)) ∧
      ((scanned l).length < l.length →
        (scanned l).any hasGraphicsBit = true ∧
        ((scanned l).any fun q => q.presentSupport) = true) ∧
      (∀ s q, scanned l = s ++ [q] → hasGraphicsBit q = true → q.presentSupport = true →
        findQueueFamilies l = ⟨some s.length, some s.length⟩) := by
  refine ⟨findQueueFamilies_eq l, scannedAux_prefix l false false, ?_, ?_, ?_⟩
  · intro n hn hcontra
    obtain ⟨h1, h2⟩ := hcontra
    have hfalse := scannedAux_not_complete_before l false false n rfl hn
    simp only [scanned] at hn
    rw [h1, h2] at hfalse
    simp at hfalse
  · intro h
    have htrue := scannedAux_complete_of_lt l false false h
    simpa using htrue
  · intro s q hs hg hp
    rw [findQueueFamilies_eq l, hs, lastIdx_append, lastIdx_append]
    simp [hg, hp]

/-- Claim C1 as stated is false: in the family list with flags
[graphics, graphics, present-only], the lowest graphics-capable index is 0
but findQueueFamilies returns graphics index 1 (matches overwrite earlier
ones until the scan stops); and in the family list
[present-only, graphics-only, graphics+present], family 2 supports both
graphics and present, yet the returned indices are 1 and 0 — neither equals 2
and they differ from each other. -/
theorem claim1_counterexample :
    hasGraphicsBit ⟨1, false⟩ = true ∧
      (findQueueFamilies [⟨1, false⟩, ⟨1, false⟩, ⟨0, true⟩]).graphicsFamily = some 1 ∧
      (hasGraphicsBit ⟨1, true⟩ = true ∧ (QueueFamily.mk 1 true).presentSupport = true) ∧
      findQueueFamilies [⟨0, true⟩, ⟨1, false⟩, ⟨1, true⟩] = ⟨some 1, some 0⟩ := by
  decide

theorem claim1_witness :
    findQueueFamilies [⟨0, true⟩, ⟨3, true⟩] = ⟨some 1, some 1⟩ ∧
      ¬(([] : List QueueFamily).any hasGraphicsBit = true ∧
        (([] : List QueueFamily).any fun q => q.presentSupport) = true) := by
  have h := claim1_findQueueFamilies_last_match_in_scanned_prefix [⟨0, true⟩, ⟨3, true⟩]
  refine ⟨h.2.2.2.2 [⟨0, true⟩] ⟨3, true⟩ (by decide) (by decide) (by decide), ?_⟩
  have h0 := h.2.2.1 0 (by decide)
  exact h0

/-- One element of the queueCreateInfos vector built by createLogicalDevice:
queue family index, queueCount, and the single queue priority (the float
1.0f, modelled as the exact rational 1). -/
structure DeviceQueueCreateInfo where
  queueFamilyIndex : Nat
  queueCount : Nat
  queuePriority : Rat
deriving DecidableEq

/-- The vector uniqueQueueFamilies of createLogicalDevice (main.cpp lines
294-298): a std vector built from the two values graphicsFamily.value() and
presentFamily.value().  The value() accesses are modelled with Option bind;
the vector is NOT deduplicated in the source. -/
def uniqueQueueFamilies (indices : QueueFamilyIndices) : Option (List Nat) := do
  let g ← indices.graphicsFamily
  let p ← indices.presentFamily
  pure [g, p]

/-- The queueCreateInfos vector of createLogicalDevice (main.cpp lines
300-310): one create record per element of uniqueQueueFamilies, each with
queueCount 1 and priority 1.0. -/
def queueCreateInfos (indices : QueueFamilyIndices) : Option (List DeviceQueueCreateInfo) := do
  let fams ← uniqueQueueFamilies indices
  pure (fams.map fun f => ⟨f, 1, 1⟩)

/-- Claim C2 is contradicted by the code: when the graphics and present
families coincide (both index 0 here), createLogicalDevice does not
deduplicate — uniqueQueueFamilies is a std vector holding both values, so two
identical queue-create records for family 0 are passed to device creation,
not the single record the claim requires.  (Each record still has queue
count 1 and priority 1.0.) -/
theorem claim2_queue_create_infos_not_deduplicated :
    uniqueQueueFamilies ⟨some 0, some 0⟩ = some [0, 0] ∧
      queueCreateInfos ⟨some 0, some 0⟩ = some [⟨0, 1, 1⟩, ⟨0, 1, 1⟩] ∧
      (queueCreateInfos ⟨some 0, some 0⟩).map List.length ≠ some 1 := by
  decide

/-- VkExtent2D: a pair of uint32 values. -/
structure Extent2D where
  width : Nat
  height : Nat
deriving DecidableEq

/-- The fields of VkSurfaceCapabilitiesKHR read by createSwapChain and
chooseSwapExtent.  All integer fields are uint32 values. -/
structure SurfaceCapabilities where
  minImageCount : Nat
  maxImageCount : Nat
  currentExtent : Extent2D
  minImageExtent : Extent2D
  maxImageExtent : Extent2D
deriving DecidableEq

/-- 2^32, the modulus of uint32 arithmetic. -/
def u32Mod : Nat := 4294967296

/-- The swapchain image count requested by createSwapChain (main.cpp lines
459-464): minImageCount + 1 in uint32 arithmetic, lowered to maxImageCount
when maxImageCount is positive and exceeded. -/
def swapImageCount (caps : SurfaceCapabilities) : Nat :=
  let imageCount := (caps.minImageCount + 1) % u32Mod
  if 0 < caps.maxImageCount ∧ caps.maxImageCount < imageCount then
    caps.maxImageCount
  else
    imageCount

/-- Modelled from the words of claim C3: clamp(minImageCount + 1,
minImageCount, maxImageCount) over 32-bit unsigned arithmetic, where
maxImageCount == 0 means unbounded and no upper clamp is applied. -/
def specImageCountClamp (caps : SurfaceCapabilities) : Nat :=
  if caps.maxImageCount = 0 then
    Nat.max caps.minImageCount ((caps.minImageCount + 1) % u32Mod)
  else
    Nat.max caps.minImageCount (Nat.min ((caps.minImageCount + 1) % u32Mod) caps.maxImageCount)

/-- Claim C3 as stated is false: for the (Vulkan-inconsistent, but
well-typed) capabilities value with minImageCount 5 and maxImageCount 3, the
code requests 3 images while clamp(5 + 1, 5, 3) = 5 — the code applies no
lower clamp at minImageCount. -/
theorem claim3_counterexample :
    swapImageCount ⟨5, 3, ⟨0, 0⟩, ⟨0, 0⟩, ⟨0, 0⟩⟩ = 3 ∧
      specImageCountClamp ⟨5, 3, ⟨0, 0⟩, ⟨0, 0⟩, ⟨0, 0⟩⟩ = 5 := by
  decide

/-- Claim C3, corrected: whenever minImageCount + 1 does not overflow uint32
and the capabilities are consistent (maxImageCount is 0 or at least
minImageCount, as Vulkan guarantees for real surfaces), the requested image
count equals clamp(minImageCount + 1, minImageCount, maxImageCount), with
maxImageCount == 0 meaning unbounded (no upper clamp).  The code itself
applies only the upper cap, which coincides with the clamp under these
conditions. -/
theorem claim3_image_count_clamp (caps : SurfaceCapabilities)
    (hof : caps.minImageCount + 1 < u32Mod)
    (hmax : caps.maxImageCount = 0 ∨ caps.minImageCount ≤ caps.maxImageCount) :
    swapImageCount caps = specImageCountClamp caps := by
  have hmod : (caps.minImageCount + 1) % u32Mod = caps.minImageCount + 1 :=
    Nat.mod_eq_of_lt hof
  unfold swapImageCount specImageCountClamp
  simp only [hmod, Nat.max_def, Nat.min_def]
  rcases hmax with h | h <;> (repeat' split) <;> omega

theorem claim3_witness :
    swapImageCount ⟨2, 3, ⟨0, 0⟩, ⟨0, 0⟩, ⟨0, 0⟩⟩ =
        specImageCountClamp ⟨2, 3, ⟨0, 0⟩, ⟨0, 0⟩, ⟨0, 0⟩⟩ ∧
      swapImageCount ⟨2, 3, ⟨0, 0⟩, ⟨0, 0⟩, ⟨0, 0⟩⟩ = 3 :=
  ⟨claim3_image_count_clamp _ (by decide) (Or.inr (by decide)), by decide⟩

/-- UINT32_MAX, the sentinel checked by chooseSwapExtent. -/
def uint32Max : Nat := 4294967295

/-- chooseSwapExtent (main.cpp lines 428-444): return currentExtent when its
width differs from UINT32_MAX; otherwise take the window framebuffer size and
apply max(minImageExtent, min(maxImageExtent, size)) per component. -/
def chooseSwapExtent (caps : SurfaceCapabilities) (fbWidth fbHeight : Nat) : Extent2D :=
  if caps.currentExtent.width ≠ uint32Max then
    caps.currentExtent
  else
    ⟨max caps.minImageExtent.width (min caps.maxImageExtent.width fbWidth),
     max caps.minImageExtent.height (min caps.maxImageExtent.height fbHeight)⟩

/-- Modelled from the words of claim C4: the point of the interval from lo to
hi nearest to x (component-wise clamping into the interval). -/
def clampTo (lo hi x : Nat) : Nat :=
  if x < lo then lo else if hi < x then hi else x

/-- Claim C4, confirmed: for every capabilities value (with the interval
minImageExtent ≤ maxImageExtent well-formed per component, as a real surface
reports) and framebuffer size, chooseSwapExtent returns the current extent
exactly whenever it is defined — that is, whenever its width is not the
max-uint32 sentinel — and otherwise returns the framebuffer size clamped
component-wise into the interval from minImageExtent to maxImageExtent. -/
theorem claim4_choose_swap_extent (caps : SurfaceCapabilities) (fbWidth fbHeight : Nat)
    (hW : caps.minImageExtent.width ≤ caps.maxImageExtent.width)
    (hH : caps.minImageExtent.height ≤ caps.maxImageExtent.height) :
    (caps.currentExtent.width ≠ uint32Max →
        chooseSwapExtent caps fbWidth fbHeight = caps.currentExtent) ∧
      (caps.currentExtent.width = uint32Max →
        chooseSwapExtent caps fbWidth fbHeight =
          ⟨clampTo caps.minImageExtent.width caps.maxImageExtent.width fbWidth,
           clampTo caps.minImageExtent.height caps.maxImageExtent.height fbHeight⟩) := by
  constructor
  · intro h
    simp [chooseSwapExtent, h]
  · intro h
    rw [chooseSwapExtent, if_neg (by simp [h])]
    simp only [Extent2D.mk.injEq]
    unfold clampTo
    constructor <;> (repeat' split) <;> omega

theorem claim4_witness :
    chooseSwapExtent ⟨1, 2, ⟨4294967295, 600⟩, ⟨100, 100⟩, ⟨2000, 2000⟩⟩ 50 3000 =
        ⟨100, 2000⟩ ∧
      chooseSwapExtent ⟨1, 2, ⟨800, 600⟩, ⟨100, 100⟩, ⟨2000, 2000⟩⟩ 50 3000 = ⟨800, 600⟩ := by
  have h1 := claim4_choose_swap_extent ⟨1, 2, ⟨4294967295, 600⟩, ⟨100, 100⟩, ⟨2000, 2000⟩⟩
    50 3000 (by decide) (by decide)
  have h2 := claim4_choose_swap_extent ⟨1, 2, ⟨800, 600⟩, ⟨100, 100⟩, ⟨2000, 2000⟩⟩
    50 3000 (by decide) (by decide)
  exact ⟨(h1.2 rfl).trans (by decide), h2.1 (by decide)⟩

/-- VkSurfaceFormatKHR: the numeric values of its two enum fields. -/
structure SurfaceFormat where
  format : Nat
  colorSpace : Nat
deriving DecidableEq

/-- The enum value VK_FORMAT_B8G8R8A8_SRGB. -/
def formatB8G8R8A8Srgb : Nat := 50

/-- The enum value VK_COLOR_SPACE_SRGB_NONLINEAR_KHR. -/
def colorSpaceSrgbNonlinear : Nat := 0

/-- The format preferred by chooseSwapSurfaceFormat. -/
def preferredSurfaceFormat : SurfaceFormat := ⟨formatB8G8R8A8Srgb, colorSpaceSrgbNonlinear⟩

/-- chooseSwapSurfaceFormat (main.cpp lines 400-412): return the first
candidate whose format is B8G8R8A8_SRGB and whose color space is
SRGB_NONLINEAR; otherwise availableFormats[0].  The unchecked [0] access is
modelled with head?, none standing for the out-of-bounds read on an empty
vector. -/
def chooseSwapSurfaceFormat (availableFormats : List SurfaceFormat) : Option SurfaceFormat :=
  match availableFormats.find? (fun f =>
      f.format == formatB8G8R8A8Srgb && f.colorSpace == colorSpaceSrgbNonlinear) with
  | some f => some f
  | none => availableFormats.head?

theorem surfaceFormat_pred_iff (f : SurfaceFormat) :
    (f.format == formatB8G8R8A8Srgb && f.colorSpace == colorSpaceSrgbNonlinear) = true ↔
      f = preferredSurfaceFormat := by
  cases f
  simp [preferredSurfaceFormat, SurfaceFormat.mk.injEq, Bool.and_eq_true, beq_iff_eq]

/-- Claim C5, confirmed: for every non-empty candidate list,
chooseSwapSurfaceFormat returns the BGRA8-sRGB / sRGB-nonlinear format
whenever that format/color-space pair occurs anywhere in the list, and
otherwise returns the first candidate; the choice is a deterministic function
of the list and, in the preferred case, independent of the candidate order
(any two lists containing the preferred pair yield the same result). -/
theorem claim5_choose_surface_format (l : List SurfaceFormat) (hne : l ≠ []) :
    (preferredSurfaceFormat ∈ l →
        chooseSwapSurfaceFormat l = some preferredSurfaceFormat) ∧
      (preferredSurfaceFormat ∉ l → chooseSwapSurfaceFormat l = some (l.head hne)) ∧
      (∀ l2, preferredSurfaceFormat ∈ l → preferredSurfaceFormat ∈ l2 →
        chooseSwapSurfaceFormat l = chooseSwapSurfaceFormat l2) := by
  have key : ∀ m : List SurfaceFormat, preferredSurfaceFormat ∈ m →
      chooseSwapSurfaceFormat m = some preferredSurfaceFormat := by
    intro m hm
    unfold chooseSwapSurfaceFormat
    cases hfind : m.find? (fun f =>
        f.format == formatB8G8R8A8Srgb && f.colorSpace == colorSpaceSrgbNonlinear) with
    | none =>
      rw [List.find?_eq_none] at hfind
      exact absurd ((surfaceFormat_pred_iff preferredSurfaceFormat).mpr rfl) (hfind _ hm)
    | some f =>
      have hf := List.find?_some hfind
      rw [surfaceFormat_pred_iff] at hf
      rw [hf]
  refine ⟨key l, ?_, fun l2 h1 h2 => (key l h1).trans (key l2 h2).symm⟩
  intro hnotin
  unfold chooseSwapSurfaceFormat
  cases hfind : l.find? (fun f =>
      f.format == formatB8G8R8A8Srgb && f.colorSpace == colorSpaceSrgbNonlinear) with
  | none => simp [List.head?_eq_head hne]
  | some f =>
    have hf := List.find?_some hfind
    rw [surfaceFormat_pred_iff] at hf
    subst hf
    exact absurd (List.mem_of_find?_eq_some hfind) hnotin

theorem claim5_witness :
    chooseSwapSurfaceFormat [⟨44, 0⟩, ⟨50, 0⟩] = some ⟨50, 0⟩ ∧
      chooseSwapSurfaceFormat [⟨44, 0⟩, ⟨37, 1⟩] = some ⟨44, 0⟩ := by
  have h1 := claim5_choose_surface_format [⟨44, 0⟩, ⟨50, 0⟩] (by decide)
  have h2 := claim5_choose_surface_format [⟨44, 0⟩, ⟨37, 1⟩] (by decide)
  exact ⟨h1.1 (by decide), (h2.2.1 (by decide)).trans (by decide)⟩

/-- The enum value VK_PRESENT_MODE_MAILBOX_KHR. -/
def presentModeMailbox : Nat := 1

/-- The enum value VK_PRESENT_MODE_FIFO_KHR. -/
def presentModeFifo : Nat := 2

/-- chooseSwapPresentMode (main.cpp lines 415-425): return the first candidate
equal to MAILBOX; otherwise FIFO. -/
def chooseSwapPresentMode (availablePresentModes : List Nat) : Nat :=
  match availablePresentModes.find? (fun m => m == presentModeMailbox) with
  | some m => m
  | none => presentModeFifo

/-- Claim C6, confirmed: for every candidate list, chooseSwapPresentMode
returns mailbox exactly when mailbox occurs in the list and FIFO otherwise —
in particular FIFO is returned even when the list holds other non-FIFO modes
(or nothing at all) but no mailbox. -/
theorem claim6_choose_present_mode (l : List Nat) :
    chooseSwapPresentMode l =
      if presentModeMailbox ∈ l then presentModeMailbox else presentModeFifo := by
  unfold chooseSwapPresentMode
  cases hfind : l.find? (fun m => m == presentModeMailbox) with
  | none =>
    rw [List.find?_eq_none] at hfind
    rw [if_neg]
    intro hmem
    exact hfind _ hmem (by simp)
  | some m =>
    have hm := List.find?_some hfind
    have hmem := List.mem_of_find?_eq_some hfind
    simp only [beq_iff_eq] at hm
    subst hm
    rw [if_pos hmem]

/-- The destroyable resources the application creates, as named in the
source. -/
inductive Resource
  | glfwState
  | window
  | vkInstance
  | debugMessenger
  | surface
  | device
  | swapchain
  | imageViews
  | renderPass
  | pipelineLayout
  | graphicsPipeline
  | framebuffers
  | commandPool
deriving DecidableEq

/-- Position of a resource in an order list. -/
def posIn (l : List Resource) (r : Resource) : Nat := l.findIdx (fun x => x == r)

/-- Creation order: glfwInit and glfwCreateWindow in initWindow, then
initVulkan (main.cpp lines 905-920) runs createInstance, setupDebugMessenger
(a no-op unless validation layers are enabled), createSurface,
pickPhysicalDevice (creates nothing destroyable), createLogicalDevice,
createSwapChain, createImageviews, createRenderPass, createGraphicsPipeline
(pipeline layout, then the pipeline; the transient shader modules are
destroyed inside it), createFramebuffers, createCommandPool,
createCommandBuffers (buffers freed with their pool). -/
def creationOrder (validation : Bool) : List Resource :=
  [Resource.glfwState, Resource.window, Resource.vkInstance] ++
    (if validation then [Resource.debugMessenger] else []) ++
    [Resource.surface, Resource.device, Resource.swapchain, Resource.imageViews,
     Resource.renderPass, Resource.pipelineLayout, Resource.graphicsPipeline,
     Resource.framebuffers, Resource.commandPool]

/-- Destruction order executed by cleanup (main.cpp lines 930-959): command
pool, framebuffers, pipeline, pipeline layout, render pass, image views,
swapchain, logical device, debug messenger (only when validation layers are
enabled), surface, instance, window, then glfwTerminate. -/
def cleanupOrder (validation : Bool) : List Resource :=
  [Resource.commandPool, Resource.framebuffers, Resource.graphicsPipeline,
   Resource.pipelineLayout, Resource.renderPass, Resource.imageViews,
   Resource.swapchain, Resource.device] ++
    (if validation then [Resource.debugMessenger] else []) ++
    [Resource.surface, Resource.vkInstance, Resource.window, Resource.glfwState]

/-- Claim C7 as stated is false: with validation layers enabled (the
configuration compiled in a debug build, which also creates the debug
messenger), the destruction sequence is not the strict reverse of the
creation sequence — creation runs debug messenger before surface, so strict
reverse would destroy the surface first, but cleanup destroys the debug
messenger before the surface. -/
theorem claim7_counterexample :
    cleanupOrder true ≠ (creationOrder true).reverse ∧
      posIn (creationOrder true) Resource.debugMessenger <
        posIn (creationOrder true) Resource.surface ∧
      posIn (cleanupOrder true) Resource.debugMessenger <
        posIn (cleanupOrder true) Resource.surface := by
  decide

/-- Claim C7, corrected: cleanup destroys command pool, framebuffers,
pipeline, pipeline layout, render pass, image views, swapchain, logical
device, debug messenger (if created), surface, instance, window, then the
windowing library's process-wide state.  This is the reverse of the creation
order except for one transposition: the debug messenger is destroyed
immediately BEFORE the surface, although it was created before it (strict
reverse would destroy it after).  Without validation layers the orders are
exact mirrors.  All the stated lifetime invariants hold: every resource
created after the logical device is destroyed before it, the logical device
is destroyed before the instance, and the surface is destroyed after the
swapchain and before the instance. -/
theorem claim7_cleanup_reverse_except_messenger :
    cleanupOrder false = (creationOrder false).reverse ∧
      (cleanupOrder true).erase Resource.debugMessenger =
        ((creationOrder true).reverse).erase Resource.debugMessenger ∧
      posIn (cleanupOrder true) Resource.debugMessenger + 1 =
        posIn (cleanupOrder true) Resource.surface ∧
      (∀ v : Bool, ∀ r ∈ creationOrder v,
        posIn (creationOrder v) Resource.device < posIn (creationOrder v) r →
          posIn (cleanupOrder v) r < posIn (cleanupOrder v) Resource.device) ∧
      (∀ v : Bool,
        posIn (cleanupOrder v) Resource.device <
          posIn (cleanupOrder v) Resource.vkInstance) ∧
      (∀ v : Bool,
        posIn (cleanupOrder v) Resource.swapchain <
            posIn (cleanupOrder v) Resource.surface ∧
          posIn (cleanupOrder v) Resource.surface <
            posIn (cleanupOrder v) Resource.vkInstance) := by
  decide

theorem claim7_witness :
    posIn (cleanupOrder true) Resource.commandPool <
      posIn (cleanupOrder true) Resource.device :=
  claim7_cleanup_reverse_except_messenger.2.2.2.1 true Resource.commandPool
    (by decide) (by decide)

/-- The actions a main-loop iteration could take. -/
inductive LoopAction
  | pollEvents
  | submitDraw
  | presentFrame
deriving DecidableEq

/-- mainLoop (main.cpp lines 922-928), as a function of the successive values
returned by glfwWindowShouldClose: while the flag reads false, the loop body
runs glfwPollEvents and nothing else; the first true flag ends the loop. -/
def mainLoopActions : List Bool → List LoopAction
  | [] => []
  | shouldClose :: rest =>
    if shouldClose then [] else LoopAction.pollEvents :: mainLoopActions rest

/-- Claim C9, confirmed: for every sequence of close-flag readings, the main
loop never submits command buffers and never presents a frame — every action
it takes is an event poll. -/
theorem claim9_loop_never_submits_or_presents (flags : List Bool) :
    LoopAction.submitDraw ∉ mainLoopActions flags ∧
      LoopAction.presentFrame ∉ mainLoopActions flags ∧
      ∀ a ∈ mainLoopActions flags, a = LoopAction.pollEvents := by
  induction flags with
  | nil => simp [mainLoopActions]
  | cons b rest ih =>
    cases b with
    | true => simp [mainLoopActions]
    | false =>
      simp only [mainLoopActions, if_neg Bool.false_ne_true, List.mem_cons]
      refine ⟨?_, ?_, ?_⟩
      · rintro (h | h)
        · exact absurd h (by decide)
        · exact ih.1 h
      · rintro (h | h)
        · exact absurd h (by decide)
        · exact ih.2.1 h
      · rintro a (h | h)
        · exact h
        · exact ih.2.2 a h

theorem claim9_witness :
    LoopAction.pollEvents = LoopAction.pollEvents ∧
      LoopAction.submitDraw ∉ mainLoopActions [false, true] :=
  ⟨(claim9_loop_never_submits_or_presents [false, true]).2.2 LoopAction.pollEvents
      (by decide),
    (claim9_loop_never_submits_or_presents [false, true]).1⟩

/-- The requested validation layers (main.cpp lines 21-23). -/
def validationLayers : List String := ["VK_LAYER_KHRONOS_validation"]

/-- checkValidationLayerSupport (main.cpp lines 31-55): every requested layer
name must occur (by string comparison) among the enumerated instance
layers. -/
def checkValidationLayerSupport (availableLayers : List String) : Bool :=
  validationLayers.all fun layerName =>
    availableLayers.any fun layerProperties => layerProperties == layerName

/-- Outcomes of the external calls made during the run, plus the compile-time
validation switch; true means the corresponding call reports success. -/
structure Env where
  enableValidationLayers : Bool
  availableLayers : List String
  vkCreateInstanceOk : Bool
  debugMessengerOk : Bool
  surfaceOk : Bool
  anyGpu : Bool
  suitableGpuFound : Bool
  deviceOk : Bool
  laterStepsOk : Bool
deriving DecidableEq

/-- Vulkan work units completed during the run of initVulkan. -/
inductive VkWork
  | instanceCreated
  | debugMessengerCreated
  | surfaceCreated
  | physicalDevicePicked
  | deviceCreated
  | laterSetupDone
deriving DecidableEq

/-- createInstance (main.cpp lines 961-1002): the validation-layer check runs
first and throws with this message when it fails; only then is the instance
itself created, which may also fail. -/
def createInstanceM (e : Env) : Except String Unit :=
  if e.enableValidationLayers && !checkValidationLayerSupport e.availableLayers then
    Except.error "validation layers requested, but not available!"
  else if !e.vkCreateInstanceOk then
    Except.error "failed to create instance!"
  else
    Except.ok ()

/-- setupDebugMessenger (main.cpp lines 156-170): a no-op unless validation
layers are enabled. -/
def setupDebugMessengerM (e : Env) : Except String Unit :=
  if !e.enableValidationLayers then Except.ok ()
  else if !e.debugMessengerOk then Except.error "failed to set up debug messenger!"
  else Except.ok ()

/-- createSurface (main.cpp lines 350-357). -/
def createSurfaceM (e : Env) : Except String Unit :=
  if !e.surfaceOk then Except.error "failed to create window surface!" else Except.ok ()

/-- pickPhysicalDevice (main.cpp lines 174-199), abstracted to the two ways
it can fail. -/
def pickPhysicalDeviceM (e : Env) : Except String Unit :=
  if !e.anyGpu then Except.error "failed to find GPUs with Vulkan support!"
  else if !e.suitableGpuFound then Except.error "failed to find a suitable GPU!"
  else Except.ok ()

/-- createLogicalDevice (main.cpp lines 288-345), abstracted to the outcome
of vkCreateDevice. -/
def createLogicalDeviceM (e : Env) : Except String Unit :=
  if !e.deviceOk then Except.error "failed to create logical device!" else Except.ok ()

/-- The remaining steps of initVulkan (swapchain, image views, render pass,
pipeline, framebuffers, command pool, command buffers), lumped into one
fallible unit. -/
def laterSetupM (e : Env) : Except String Unit :=
  if !e.laterStepsOk then Except.error "failed to complete later setup!" else Except.ok ()

/-- initVulkan (main.cpp lines 905-920): the steps run in order; the first
raised error aborts the sequence.  Returns the completed work units and the
error message, if any. -/
def initVulkanRun (e : Env) : List VkWork × Option String :=
  match createInstanceM e with
  | Except.error msg => ([], some msg)
  | Except.ok _ =>
    let w1 := [VkWork.instanceCreated]
    match setupDebugMessengerM e with
    | Except.error msg => (w1, some msg)
    | Except.ok _ =>
      let w2 := w1 ++ (if e.enableValidationLayers then [VkWork.debugMessengerCreated] else [])
      match createSurfaceM e with
      | Except.error msg => (w2, some msg)
      | Except.ok _ =>
        let w3 := w2 ++ [VkWork.surfaceCreated]
        match pickPhysicalDeviceM e with
        | Except.error msg => (w3, some msg)
        | Except.ok _ =>
          let w4 := w3 ++ [VkWork.physicalDevicePicked]
          match createLogicalDeviceM e with
          | Except.error msg => (w4, some msg)
          | Except.ok _ =>
            let w5 := w4 ++ [VkWork.deviceCreated]
            match laterSetupM e with
            | Except.error msg => (w5, some msg)
            | Except.ok _ => (w5 ++ [VkWork.laterSetupDone], none)

/-- main (main.cpp lines 1005-1016): any error raised by run() is caught at
the top level, its message is written to the error stream, and the process
exits with EXIT_FAILURE (1); otherwise it exits with EXIT_SUCCESS (0).  The
pair holds the exit code and the logged message, if any. -/
def mainRun (e : Env) : Nat × Option String :=
  match (initVulkanRun e).2 with
  | some msg => (1, some msg)
  | none => (0, none)

/-- Claim C8, confirmed: when validation layers are enabled and the requested
layer is absent from the enumerated layer list, createInstance raises the
fatal error before any Vulkan work unit completes (the work list is empty, so
no instance and no device work was done), and main converts that error into
the logged message and a non-zero exit code, with no retry or fallback. -/
theorem claim8_missing_layer_aborts (e : Env)
    (hval : e.enableValidationLayers = true)
    (hmissing : "VK_LAYER_KHRONOS_validation" ∉ e.availableLayers) :
    createInstanceM e = Except.error "validation layers requested, but not available!" ∧
      initVulkanRun e = ([], some "validation layers requested, but not available!") ∧
      mainRun e = (1, some "validation layers requested, but not available!") := by
  have hcheck : checkValidationLayerSupport e.availableLayers = false := by
    unfold checkValidationLayerSupport validationLayers
    simp only [List.all_cons, List.all_nil, Bool.and_true]
    rw [List.any_eq_false]
    intro x hx
    simp only [beq_iff_eq]
    exact fun hxeq => hmissing (hxeq ▸ hx)
  have hinst :
      createInstanceM e = Except.error "validation layers requested, but not available!" := by
    unfold createInstanceM
    rw [hval, hcheck]
    rfl
  refine ⟨hinst, ?_, ?_⟩
  · unfold initVulkanRun
    rw [hinst]
  · unfold mainRun initVulkanRun
    rw [hinst]

theorem claim8_witness :
    mainRun ⟨true, [], true, true, true, true, true, true, true⟩ =
      (1, some "validation layers requested, but not available!") :=
  (claim8_missing_layer_aborts ⟨true, [], true, true, true, true, true, true, true⟩
    rfl (by simp)).2.2

/-- The required device extensions (main.cpp lines 362-365):
VK_KHR_SWAPCHAIN_EXTENSION_NAME. -/
def deviceExtensions : List String := ["VK_KHR_swapchain"]

/-- The per-device query results consumed by isDeviceSuitable. -/
structure PhysicalDevice where
  queueFamilies : List QueueFamily
  availableExtensions : List String
  formats : List SurfaceFormat
  presentModes : List Nat
deriving DecidableEq

/-- checkDeviceExtensionSupport (main.cpp lines 218-235): the set of required
extensions minus the available ones must be empty, i.e. every required
extension occurs among the available ones. -/
def checkDeviceExtensionSupport (d : PhysicalDevice) : Bool :=
  deviceExtensions.all fun required =>
    d.availableExtensions.any fun avail => avail == required

/-- isDeviceSuitable (main.cpp lines 201-216). -/
def isDeviceSuitable (d : PhysicalDevice) : Bool :=
  let indices := findQueueFamilies d.queueFamilies
  let extensionsSupported := checkDeviceExtensionSupport d
  let swapChainAdequate :=
    if extensionsSupported then !d.formats.isEmpty && !d.presentModes.isEmpty else false
  indices.isComplete && extensionsSupported && swapChainAdequate

/-- pickPhysicalDevice (main.cpp lines 174-199): the first suitable device of
the enumeration, or a fatal error. -/
def pickPhysicalDevice (devices : List PhysicalDevice) : Except String PhysicalDevice :=
  if devices.isEmpty then
    Except.error "failed to find GPUs with Vulkan support!"
  else
    match devices.find? isDeviceSuitable with
    | some d => Except.ok d
    | none => Except.error "failed to find a suitable GPU!"

/-- The accesses graphicsFamily.value() and presentFamily.value() of
createSwapChain (main.cpp lines 476-478), building the queueFamilyIndices
array. -/
def swapChainQueueFamilyIndices (indices : QueueFamilyIndices) : Option (List Nat) := do
  let g ← indices.graphicsFamily
  let p ← indices.presentFamily
  pure [g, p]

/-- The access queueFamilyIndices.graphicsFamily.value() of createCommandPool
(main.cpp line 840). -/
def commandPoolQueueFamilyIndex (indices : QueueFamilyIndices) : Option Nat :=
  indices.graphicsFamily

/-- Claim C10, confirmed: whenever pickPhysicalDevice succeeds with some
device, that device passed isDeviceSuitable, so findQueueFamilies on it is
complete — both optionals hold values — and every optional access performed
afterwards by createLogicalDevice, createSwapChain and createCommandPool
(which re-run findQueueFamilies on the same stored device and call value())
is on a non-empty optional: the error branch of optional access is
unreachable. -/
theorem claim10_optional_accesses_safe (devices : List PhysicalDevice) (d : PhysicalDevice)
    (hpick : pickPhysicalDevice devices = Except.ok d) :
    (findQueueFamilies d.queueFamilies).isComplete = true ∧
      (findQueueFamilies d.queueFamilies).graphicsFamily.isSome = true ∧
      (findQueueFamilies d.queueFamilies).presentFamily.isSome = true ∧
      (uniqueQueueFamilies (findQueueFamilies d.queueFamilies)).isSome = true ∧
      (queueCreateInfos (findQueueFamilies d.queueFamilies)).isSome = true ∧
      (swapChainQueueFamilyIndices (findQueueFamilies d.queueFamilies)).isSome = true ∧
      (commandPoolQueueFamilyIndex (findQueueFamilies d.queueFamilies)).isSome = true := by
  have hsuit : isDeviceSuitable d = true := by
    unfold pickPhysicalDevice at hpick
    split at hpick
    · exact absurd hpick (by simp)
    · cases hfind : devices.find? isDeviceSuitable with
      | none =>
        rw [hfind] at hpick
        exact absurd hpick (by simp)
      | some d2 =>
        rw [hfind] at hpick
        injection hpick with h
        subst h
        exact List.find?_some hfind
  simp only [isDeviceSuitable, Bool.and_eq_true] at hsuit
  have hcomp : (findQueueFamilies d.queueFamilies).isComplete = true := hsuit.1.1
  have hgp := hcomp
  simp only [QueueFamilyIndices.isComplete, Bool.and_eq_true] at hgp
  obtain ⟨g, hg⟩ := Option.isSome_iff_exists.mp hgp.1
  obtain ⟨p, hp⟩ := Option.isSome_iff_exists.mp hgp.2
  refine ⟨hcomp, hgp.1, hgp.2, ?_, ?_, ?_, ?_⟩
  · simp [uniqueQueueFamilies, hg, hp]
  · simp [queueCreateInfos, uniqueQueueFamilies, hg, hp]
  · simp [swapChainQueueFamilyIndices, hg, hp]
  · simp [commandPoolQueueFamilyIndex, hgp.1]

/-- A device whose family 0 supports both graphics and present, with swapchain
support and one format and present mode. -/
def devA : PhysicalDevice :=
  ⟨[⟨1, true⟩], ["VK_KHR_swapchain"], [⟨50, 0⟩], [2]⟩

theorem claim10_witness :
    (findQueueFamilies devA.queueFamilies).isComplete = true ∧
      (uniqueQueueFamilies (findQueueFamilies devA.queueFamilies)).isSome = true :=
  ⟨(claim10_optional_accesses_safe [devA] devA rfl).1,
    (claim10_optional_accesses_safe [devA] devA rfl).2.2.2.1⟩

end VulkanPlayground
